import Mathlib

/-!
Shallow embedding of the SamplePy interactive navigator and batch operations
(`samplepy/cli/tui_minimal.py`, `samplepy/core/converter.py`,
`samplepy/core/organizer.py`, `samplepy/core/file_utils.py`).

Paths are modelled as lists of components (pathlib pure-path algebra:
`p / name` is `p ++ [name]`, `p.parent` is `p.dropLast`).  External
collaborators (the real filesystem, pydub, mutagen) are passed in as
function parameters: the embedding keeps the repository's own control
flow and data flow exact while leaving collaborator outcomes abstract.
-/

namespace SamplePy

abbrev FilePath := List String

/-- One filesystem entry as seen by `FileTree._populate_node`:
its name and whether `is_dir()` holds. -/
structure Item where
  name : String
  isDir : Bool
  deriving DecidableEq, Repr

/-- Python `bool` comparison `a < b` (False < True), used by tuple sort keys. -/
def pyBoolLT (a b : Bool) : Bool := !a && b

/-- The comparison induced by the Python sort key
`(not x.is_dir(), x.name.lower())` in `FileTree._populate_node`
(tuple order: first component strictly smaller, or equal firsts and
second component `<=`). -/
def itemSortLE (a b : Item) : Bool :=
  pyBoolLT (!a.isDir) (!b.isDir) ||
    ((!a.isDir) == (!b.isDir) && decide (a.name.toLower ≤ b.name.toLower))

/-- Outcome of `path.iterdir()` in `_populate_node`: the listing, or the
`PermissionError` branch, or the generic `except Exception` branch. -/
inductive ListingResult where
  | ok (items : List Item)
  | permissionDenied
  | otherError
  deriving DecidableEq, Repr

/-- One child tree node added by `_populate_node`: its label and its
`data` attribute (`None` for the synthetic error children). -/
structure ChildNode where
  label : String
  data : Option Item
  deriving DecidableEq, Repr

/-- The sorted item sequence of `_populate_node`:
`items.sort(key=lambda x: (not x.is_dir(), x.name.lower()))`. -/
def sortedItems (items : List Item) : List Item :=
  items.mergeSort itemSortLE

/-- `FileTree._populate_node`: list the directory, sort directories first
then files (case-insensitive names), add one child per item with a
folder/file label; a `PermissionError` yields one synthetic
"Permission Denied" child, any other failure one generic error child. -/
def populate_node (listing : ListingResult) : List ChildNode :=
  match listing with
  | .ok items =>
      (sortedItems items).map fun it =>
        { label := if it.isDir then "📁 " ++ it.name else "📄 " ++ it.name
          data := some it }
  | .permissionDenied => [{ label := "🔒 Permission Denied", data := none }]
  | .otherError => [{ label := "❌ Error", data := none }]

theorem itemSortLE_total (a b : Item) : itemSortLE a b || itemSortLE b a := by
  unfold itemSortLE pyBoolLT
  rcases le_total a.name.toLower b.name.toLower with h | h <;>
    cases ha : a.isDir <;> cases hb : b.isDir <;> simp [h]

theorem itemSortLE_trans (a b c : Item) :
    itemSortLE a b → itemSortLE b c → itemSortLE a c := by
  unfold itemSortLE pyBoolLT
  cases ha : a.isDir <;> cases hb : b.isDir <;> cases hc : c.isDir <;>
    simp <;> exact le_trans

/-- C2: the children produced when populating a directory node are the
input items sorted with every directory before every file, and within
each of the two groups in case-insensitive lexicographic name order. -/
theorem populate_node_sorted (items : List Item) :
    (populate_node (ListingResult.ok items)).map ChildNode.data
        = (sortedItems items).map some ∧
    (sortedItems items).Pairwise (fun a b =>
      (a.isDir = true ∧ b.isDir = false) ∨
      (a.isDir = b.isDir ∧ a.name.toLower ≤ b.name.toLower)) := by
  constructor
  · simp [populate_node]
  · have hs := List.sorted_mergeSort
      itemSortLE_trans (fun a b => itemSortLE_total a b) items
    refine List.Pairwise.imp ?_ hs
    intro a b hab
    unfold itemSortLE pyBoolLT at hab
    cases ha : a.isDir <;> cases hb : b.isDir <;> simp_all

/-! ### Batch operations (`AudioConverter.convert_batch`, `FileOrganizer.organize_batch`) -/

/-- The result dictionary of `AudioConverter.convert_file`: always a record
with a `success` flag (the function catches every exception), naming the
input file. -/
structure ConvertOutcome where
  success : Bool
  input_file : FilePath
  deriving DecidableEq, Repr

/-- The result dictionary of `FileOrganizer.organize_file`: always a record
with a `success` flag, naming the file. -/
structure OrganizeOutcome where
  success : Bool
  file : FilePath
  deriving DecidableEq, Repr

/-- The batch summary dictionary shared by `convert_batch` and
`organize_batch`: `total_files`, `successful`, `failed`, `results`. -/
structure BatchResult (R : Type) where
  total_files : Nat
  successful : Nat
  failed : Nat
  results : List R
  deriving DecidableEq, Repr

/-- The accumulation loop of `convert_batch`/`organize_batch`: one
collaborator call per item, in order, appending the result and counting
it as successful or failed. Returns (results, successful, failed). -/
def batchLoop {R : Type} (success : R → Bool) (op : FilePath → R) :
    List FilePath → List R × Nat × Nat
  | [] => ([], 0, 0)
  | file :: rest =>
      let result := op file
      let acc := batchLoop success op rest
      (result :: acc.1,
       (if success result then 1 else 0) + acc.2.1,
       (if success result then 0 else 1) + acc.2.2)

/-- `AudioConverter.convert_batch`, with the per-file conversion
(`convert_file`, a pydub collaborator call) passed in as `convert_file`. -/
def convert_batch (convert_file : FilePath → ConvertOutcome)
    (input_files : List FilePath) : BatchResult ConvertOutcome :=
  let (results, s, f) := batchLoop ConvertOutcome.success convert_file input_files
  { total_files := input_files.length, successful := s, failed := f, results := results }

/-- `FileOrganizer.organize_batch`, with the per-file organize step
(`organize_file`, a metadata + filesystem collaborator call) passed in
as `organize_file`. -/
def organize_batch (organize_file : FilePath → OrganizeOutcome)
    (audio_files : List FilePath) : BatchResult OrganizeOutcome :=
  let (results, s, f) := batchLoop OrganizeOutcome.success organize_file audio_files
  { total_files := audio_files.length, successful := s, failed := f, results := results }

theorem batchLoop_results {R : Type} (success : R → Bool) (op : FilePath → R)
    (files : List FilePath) :
    (batchLoop success op files).1 = files.map op := by
  induction files with
  | nil => rfl
  | cons file rest ih => simp [batchLoop, ih]

theorem batchLoop_counts {R : Type} (success : R → Bool) (op : FilePath → R)
    (files : List FilePath) :
    (batchLoop success op files).2.1 + (batchLoop success op files).2.2
      = files.length := by
  induction files with
  | nil => rfl
  | cons file rest ih =>
      simp only [batchLoop, List.length_cons]
      cases h : success (op file) <;> simp [h] <;> omega

/-- C1: a batch over N input files yields exactly N outcome records, one
per input in input order (`results = files.map op`, so a failure at item
i neither skips nor reorders nor aborts items i+1..N), the reported
total equals N, and successful + failed = N — for both `convert_batch`
and `organize_batch`. -/
theorem batch_processes_every_item_in_order
    (convert_file : FilePath → ConvertOutcome)
    (organize_file : FilePath → OrganizeOutcome)
    (files : List FilePath) :
    (convert_batch convert_file files).results = files.map convert_file ∧
    (convert_batch convert_file files).results.length = files.length ∧
    (convert_batch convert_file files).total_files = files.length ∧
    (convert_batch convert_file files).successful
        + (convert_batch convert_file files).failed = files.length ∧
    (organize_batch organize_file files).results = files.map organize_file ∧
    (organize_batch organize_file files).results.length = files.length ∧
    (organize_batch organize_file files).total_files = files.length ∧
    (organize_batch organize_file files).successful
        + (organize_batch organize_file files).failed = files.length := by
  refine ⟨?_, ?_, rfl, ?_, ?_, ?_, rfl, ?_⟩
  · exact batchLoop_results _ _ files
  · rw [show (convert_batch convert_file files).results
        = (batchLoop ConvertOutcome.success convert_file files).1 from rfl,
      batchLoop_results]
    simp
  · exact batchLoop_counts _ _ files
  · exact batchLoop_results _ _ files
  · rw [show (organize_batch organize_file files).results
        = (batchLoop OrganizeOutcome.success organize_file files).1 from rfl,
      batchLoop_results]
    simp
  · exact batchLoop_counts _ _ files

/-! ### Organizer folder-name computation (`FileOrganizer`) -/

/-- Python `str.rstrip()`: remove trailing whitespace characters. -/
def pyRstrip (s : String) : String :=
  String.mk (s.data.reverse.dropWhile Char.isWhitespace).reverse

/-- Python `str.strip()`: remove leading and trailing whitespace. -/
def pyStrip (s : String) : String :=
  String.mk
    (((s.data.dropWhile Char.isWhitespace).reverse.dropWhile
        Char.isWhitespace).reverse)

/-- The character filter of the folder-name cleanup in `FileOrganizer`:
`c.isalnum() or c in (' ', '-', '_')`. -/
def folderNameChar (c : Char) : Bool :=
  c.isAlphanum || c = ' ' || c = '-' || c = '_'

/-- The destination folder name computed inside `FileOrganizer.organize_file`
(lines 33-48): pick the metadata field for the organization type with its
"Unknown ..." default, keep only alphanumerics, spaces, hyphens and
underscores, strip trailing whitespace, and fall back to "Unknown" if
nothing remains. `metadata` is the dictionary returned by
`MetadataManager.get_metadata` for the file. -/
def organize_file_folder_name (metadata : String → Option String)
    (organization_type : String) : String :=
  let folder_name := "Unknown"
  let folder_name :=
    if organization_type = "artist" then (metadata "artist").getD "Unknown Artist"
    else if organization_type = "album" then (metadata "album").getD "Unknown Album"
    else if organization_type = "genre" then (metadata "genre").getD "Unknown Genre"
    else if organization_type = "year" then (metadata "year").getD "Unknown Year"
    else folder_name
  let folder_name := pyRstrip (String.mk (folder_name.data.filter folderNameChar))
  if folder_name = "" then "Unknown" else folder_name

/-- The per-file folder name computed inside
`FileOrganizer.get_organization_preview` (lines 131-146), under which the
file is grouped in the preview dictionary. Same `metadata` convention as
`organize_file_folder_name`. -/
def preview_folder_name (metadata : String → Option String)
    (organization_type : String) : String :=
  let folder_name := "Unknown"
  let folder_name :=
    if organization_type = "artist" then (metadata "artist").getD "Unknown Artist"
    else if organization_type = "album" then (metadata "album").getD "Unknown Album"
    else if organization_type = "genre" then (metadata "genre").getD "Unknown Genre"
    else if organization_type = "year" then (metadata "year").getD "Unknown Year"
    else folder_name
  let folder_name := pyRstrip (String.mk (folder_name.data.filter folderNameChar))
  if folder_name = "" then "Unknown" else folder_name

/-- The target folder `organize_file` moves the file into:
`audio_file.parent / folder_name`. -/
def organize_file_target_folder (metadata : String → Option String)
    (audio_file : FilePath) (organization_type : String) : FilePath :=
  audio_file.dropLast ++ [organize_file_folder_name metadata organization_type]

/-- C10: for every file metadata and organization type, the folder name the
preview assigns equals the folder name `organize_file` moves the file
into: the preview's destination prediction is exact. -/
theorem preview_matches_organize_destination
    (metadata : String → Option String) (audio_file : FilePath)
    (organization_type : String) :
    preview_folder_name metadata organization_type
        = organize_file_folder_name metadata organization_type ∧
    organize_file_target_folder metadata audio_file organization_type
        = audio_file.dropLast ++ [preview_folder_name metadata organization_type] :=
  ⟨rfl, rfl⟩

/-! ### Navigation state (`SamplePyTUI`) -/

/-- The navigation state of `SamplePyTUI`: `current_path` and the
`path_history` list (`append` on descend, `pop` from the end on back). -/
structure NavState where
  current_path : FilePath
  path_history : List FilePath
  deriving DecidableEq, Repr

/-- `SamplePyTUI.action_open_selected`: if a path is selected and it is a
directory, push `current_path` onto the end of `path_history` and make
the selection current; otherwise no navigation change. `is_dir` is the
filesystem collaborator. -/
def action_open_selected (is_dir : FilePath → Bool)
    (selected : Option FilePath) (s : NavState) : NavState :=
  match selected with
  | none => s
  | some p =>
      if is_dir p then
        { current_path := p, path_history := s.path_history ++ [s.current_path] }
      else s

/-- `SamplePyTUI.action_go_back`: if `path_history` is non-empty, pop its
last element into `current_path`; otherwise do nothing. -/
def action_go_back (s : NavState) : NavState :=
  match s.path_history.getLast? with
  | some prev => { current_path := prev, path_history := s.path_history.dropLast }
  | none => s

/-- C6: descending into a directory and then going back restores the
`current_path` from before the descend. -/
theorem open_then_back_restores_current_path
    (is_dir : FilePath → Bool) (p : FilePath) (s : NavState)
    (hdir : is_dir p = true) :
    (action_go_back (action_open_selected is_dir (some p) s)).current_path
      = s.current_path := by
  simp [action_open_selected, hdir, action_go_back]

theorem open_then_back_restores_current_path_witness :
    (action_go_back (action_open_selected (fun _ => true)
        (some ["home", "music"]) { current_path := ["home"], path_history := [] })).current_path
      = ["home"] :=
  open_then_back_restores_current_path (fun _ => true) ["home", "music"]
    { current_path := ["home"], path_history := [] } rfl

/-- C7: going back with an empty history changes nothing: the state (and
in particular `current_path` and the empty history) is unchanged. -/
theorem go_back_empty_history_noop (s : NavState)
    (h : s.path_history = []) :
    action_go_back s = s := by
  simp [action_go_back, h]

theorem go_back_empty_history_noop_witness :
    action_go_back { current_path := ["home"], path_history := [] }
      = { current_path := ["home"], path_history := [] } :=
  go_back_empty_history_noop { current_path := ["home"], path_history := [] } rfl

/-! ### Utility panel: action menu (`UtilityPanel`) -/

/-- The `UtilityPanel` menu state touched by cursor movement: the action
strings and the integer cursor `action_index` (a Python `int`, kept in
range only by the `%` arithmetic), plus the `has_actions` guard. -/
structure PanelState where
  actions : List String
  action_index : Int
  has_actions : Bool
  deriving DecidableEq, Repr

/-- The "up" branch of `UtilityPanel.on_key`:
`self.action_index = (self.action_index - 1) % len(self.actions)`
(after the `if not self.has_actions: return` guard). Lean's `Int.emod`
agrees with Python `%` for a positive modulus. -/
def on_key_up (s : PanelState) : PanelState :=
  if s.has_actions then
    { s with action_index := (s.action_index - 1) % (s.actions.length : Int) }
  else s

/-- The "down" branch of `UtilityPanel.on_key`:
`self.action_index = (self.action_index + 1) % len(self.actions)`. -/
def on_key_down (s : PanelState) : PanelState :=
  if s.has_actions then
    { s with action_index := (s.action_index + 1) % (s.actions.length : Int) }
  else s

/-- C8: with L actions and cursor 0 ≤ i < L, moving up yields
(i - 1) mod L and moving down yields (i + 1) mod L (written over Nat as
(i + L - 1) % L and (i + 1) % L); up from 0 lands on L - 1, down from
L - 1 lands on 0, and both results are valid indices into the list. -/
theorem menu_cursor_wraps (s : PanelState) (i L : Nat)
    (hact : s.has_actions = true) (hlen : s.actions.length = L)
    (hidx : s.action_index = (i : Int)) (hi : i < L) :
    (on_key_up s).action_index = (((i + L - 1) % L : Nat) : Int) ∧
    (on_key_down s).action_index = (((i + 1) % L : Nat) : Int) ∧
    (i = 0 → (on_key_up s).action_index = ((L - 1 : Nat) : Int)) ∧
    (i = L - 1 → (on_key_down s).action_index = 0) ∧
    0 ≤ (on_key_up s).action_index ∧
    (on_key_up s).action_index < ((on_key_up s).actions.length : Int) ∧
    0 ≤ (on_key_down s).action_index ∧
    (on_key_down s).action_index < ((on_key_down s).actions.length : Int) := by
  have hL : 0 < L := Nat.lt_of_le_of_lt (Nat.zero_le i) hi
  have hLZ : ((L : Int)) ≠ 0 := by exact_mod_cast Nat.pos_iff_ne_zero.mp hL
  have hLpos : (0 : Int) < (L : Int) := by exact_mod_cast hL
  have hup : (on_key_up s).action_index = ((i : Int) - 1) % (L : Int) := by
    simp [on_key_up, hact, hlen, hidx]
  have hdown : (on_key_down s).action_index = ((i : Int) + 1) % (L : Int) := by
    simp [on_key_down, hact, hlen, hidx]
  have hupActs : (on_key_up s).actions = s.actions := by
    simp [on_key_up, hact]
  have hdownActs : (on_key_down s).actions = s.actions := by
    simp [on_key_down, hact]
  have hupNat : ((i : Int) - 1) % (L : Int) = (((i + L - 1) % L : Nat) : Int) := by
    have h1 : ((i + L - 1 : Nat) : Int) = (i : Int) - 1 + (L : Int) * 1 := by
      have : 1 ≤ i + L := by omega
      push_cast [this]
      ring
    rw [Int.ofNat_emod, h1, Int.add_mul_emod_self_left]
  refine ⟨?_, ?_, ?_, ?_, ?_, ?_, ?_, ?_⟩
  · rw [hup, hupNat]
  · rw [hdown, Int.ofNat_emod]
    push_cast
    rfl
  · intro h0
    rw [hup, hupNat, h0]
    have heq : (0 + L - 1) % L = L - 1 := by
      have hlt : 0 + L - 1 < L := by omega
      rw [Nat.mod_eq_of_lt hlt]
      omega
    rw [heq]
  · intro hlast
    rw [hdown, hlast]
    have h1 : ((L - 1 : Nat) : Int) + 1 = (L : Int) := by
      have : 1 ≤ L := hL
      push_cast [this]
      ring
    rw [h1, Int.emod_self]
  · rw [hup]
    exact Int.emod_nonneg _ hLZ
  · rw [hup, hupActs, hlen]
    exact Int.emod_lt_of_pos _ hLpos
  · rw [hdown]
    exact Int.emod_nonneg _ hLZ
  · rw [hdown, hdownActs, hlen]
    exact Int.emod_lt_of_pos _ hLpos

theorem menu_cursor_wraps_witness :
    (on_key_up { actions := ["[Enter] Open File", "[Del] Delete File", "[R] Rename File"],
                 action_index := 0, has_actions := true }).action_index = 2 ∧
    (on_key_down { actions := ["[Enter] Open File", "[Del] Delete File", "[R] Rename File"],
                   action_index := 0, has_actions := true }).action_index = 1 := by
  have h := menu_cursor_wraps
    { actions := ["[Enter] Open File", "[Del] Delete File", "[R] Rename File"],
      action_index := 0, has_actions := true } 0 3 rfl rfl rfl (by decide)
  exact ⟨by rw [h.1]; decide, by rw [h.2.1]; decide⟩

/-! ### Utility panel: context actions (`UtilityPanel.show_actions`) -/

/-- One highlighted entry as `show_actions` sees it: its name and whether
`path.is_dir()` holds. -/
structure Entry where
  name : String
  is_dir : Bool
  deriving DecidableEq, Repr

/-- `UtilityPanel.show_actions`: no actions without a selection; a
directory gets the five directory actions, any other entry the three
file actions. The function branches only on `path.is_dir()`. -/
def show_actions (path : Option Entry) : List String :=
  match path with
  | none => []
  | some e =>
      if e.is_dir then
        ["[Enter] Open Directory",
         "[N] New File",
         "[F] New Folder",
         "[Del] Delete Directory",
         "[R] Rename Directory"]
      else
        ["[Enter] Open File",
         "[Del] Delete File",
         "[R] Rename File"]

/-- `AudioConverter.SUPPORTED_FORMATS`: format name to extension list. -/
def SUPPORTED_FORMATS : List (String × List String) :=
  [("mp3", [".mp3"]), ("wav", [".wav"]), ("flac", [".flac"]),
   ("m4a", [".m4a"]), ("ogg", [".ogg"]), ("aac", [".aac"])]

/-- Whether a file name is matched by `AudioConverter.get_audio_files`'s
glob patterns (the glob `*` followed by `ext`, and the same with the
extension upper-cased, for every supported extension): the
collaborator's notion of "supported audio file". The glob match is a
case-sensitive suffix match on the characters of the name. -/
def isSupportedAudioName (name : String) : Bool :=
  (SUPPORTED_FORMATS.map Prod.snd).flatten.any fun ext =>
    ext.data.isSuffixOf name.data ||
      (ext.data.map Char.toUpper).isSuffixOf name.data

/-- C9 counterexample: "song.mp3" is a supported audio file and
"notes.txt" is not, yet `show_actions` offers both exactly the same
three file actions — no metadata/convert/organize/analyze action is ever
offered, contradicting the claim that audio actions appear exactly for
supported audio files. -/
theorem show_actions_ignores_audio_support :
    isSupportedAudioName "song.mp3" = true ∧
    isSupportedAudioName "notes.txt" = false ∧
    show_actions (some { name := "song.mp3", is_dir := false })
      = show_actions (some { name := "notes.txt", is_dir := false }) ∧
    show_actions (some { name := "song.mp3", is_dir := false })
      = ["[Enter] Open File", "[Del] Delete File", "[R] Rename File"] := by
  refine ⟨?_, ?_, rfl, rfl⟩ <;> decide

/-- C9 as amended: directories are offered exactly
{Open Directory, New File, New Folder, Delete, Rename}, files exactly
{Open File, Delete, Rename}; the offered actions depend only on the
entry's kind — the metadata/convert/organize/analyze actions are never
offered, whether or not the entry is a supported audio file. -/
theorem show_actions_depends_only_on_kind (e₁ e₂ : Entry)
    (h : e₁.is_dir = e₂.is_dir) :
    show_actions (some e₁) = show_actions (some e₂) ∧
    (e₁.is_dir = true →
      show_actions (some e₁)
        = ["[Enter] Open Directory", "[N] New File", "[F] New Folder",
           "[Del] Delete Directory", "[R] Rename Directory"]) ∧
    (e₁.is_dir = false →
      show_actions (some e₁)
        = ["[Enter] Open File", "[Del] Delete File", "[R] Rename File"]) := by
  refine ⟨?_, ?_, ?_⟩
  · simp [show_actions, h]
  · intro hd
    simp [show_actions, hd]
  · intro hd
    simp [show_actions, hd]

theorem show_actions_depends_only_on_kind_witness :
    show_actions (some { name := "song.mp3", is_dir := false })
      = show_actions (some { name := "b.txt", is_dir := false }) ∧
    show_actions (some { name := "song.mp3", is_dir := false })
      = ["[Enter] Open File", "[Del] Delete File", "[R] Rename File"] := by
  have h := show_actions_depends_only_on_kind
    { name := "song.mp3", is_dir := false } { name := "b.txt", is_dir := false } rfl
  exact ⟨h.1, h.2.2 rfl⟩

/-! ### Utility panel: input prompt submission (`UtilityPanel.on_input_submitted`) -/

/-- A filesystem mutation requested through `FileUtils` by the prompt
callbacks (`_create_file`, `_create_folder`, `_rename_path`). -/
inductive FsCall where
  | createFile (path : FilePath)
  | createFolder (path : FilePath)
  | renamePath (old new : FilePath)
  deriving DecidableEq, Repr

/-- The pending prompt action bound by `_prompt_new_file`,
`_prompt_new_folder` or `_prompt_rename`, with its context path. -/
inductive PendingAction where
  | newFile (dir_path : FilePath)
  | newFolder (dir_path : FilePath)
  | renameEntry (path : FilePath)
  deriving DecidableEq, Repr

/-- The filesystem call the bound callback makes from the submitted name:
`_create_file` touches `dir_path / name`, `_create_folder` makes
`dir_path / name`, `_rename_path` renames to `path.parent / name`. -/
def callbackFsCall : PendingAction → String → FsCall
  | .newFile d, name => .createFile (d ++ [name])
  | .newFolder d, name => .createFolder (d ++ [name])
  | .renameEntry p, name => .renamePath p (p.dropLast ++ [name])

/-- What one `on_input_submitted` run did: the filesystem calls it issued,
whether the input widget is still mounted (prompt open), the error label
it mounted (if any), whether the input field was refocused, and whether
the tree was refreshed and the panel cleared. -/
structure SubmitOutcome where
  fsCalls : List FsCall
  promptOpen : Bool
  errorMessage : Option String
  inputFocused : Bool
  refreshedAndCleared : Bool
  deriving DecidableEq, Repr

/-- `UtilityPanel.on_input_submitted` for a prompt bound to `pa` (the
callback is set): strip the submitted text; an empty result mounts the
invalid-input error and refocuses the field without any callback call; a
non-empty result runs the callback (one `FileUtils` call, whose outcome
`fs_ok` the filesystem collaborator decides), then refreshes and clears
on success or shows the failure error and refocuses on failure. -/
def on_input_submitted (pa : PendingAction) (fs_ok : FsCall → Bool)
    (raw : String) : SubmitOutcome :=
  let value := pyStrip raw
  if value = "" then
    { fsCalls := [], promptOpen := true,
      errorMessage := some "Error: Invalid input. Try again.",
      inputFocused := true, refreshedAndCleared := false }
  else
    let call := callbackFsCall pa value
    if fs_ok call then
      { fsCalls := [call], promptOpen := false, errorMessage := none,
        inputFocused := false, refreshedAndCleared := true }
    else
      { fsCalls := [call], promptOpen := true,
        errorMessage := some "Error: Operation failed. Try again.",
        inputFocused := true, refreshedAndCleared := false }

/-- C3: submitting a buffer that is empty after trimming performs no
filesystem mutation, leaves the prompt open with a validation error
shown, and refocuses the input field. -/
theorem empty_submit_mutates_nothing (pa : PendingAction)
    (fs_ok : FsCall → Bool) (raw : String) (h : pyStrip raw = "") :
    on_input_submitted pa fs_ok raw
      = { fsCalls := [], promptOpen := true,
          errorMessage := some "Error: Invalid input. Try again.",
          inputFocused := true, refreshedAndCleared := false } := by
  simp [on_input_submitted, h]

theorem empty_submit_mutates_nothing_witness :
    on_input_submitted (PendingAction.newFile ["home"]) (fun _ => true) "   "
      = { fsCalls := [], promptOpen := true,
          errorMessage := some "Error: Invalid input. Try again.",
          inputFocused := true, refreshedAndCleared := false } :=
  empty_submit_mutates_nothing (PendingAction.newFile ["home"]) (fun _ => true)
    "   " (by decide)

/-! ### Utility panel: delete action (`UtilityPanel._delete_path`) -/

/-- What activating Delete did: whether the `FileUtils.delete_path` call
was issued, whether any confirmation step was interposed, whether the
tree was reloaded, whether the action menu (panel) is still open, and
the error label mounted (if any). -/
structure DeleteOutcome where
  deleteExecuted : Bool
  confirmationRequested : Bool
  treeReloaded : Bool
  menuOpen : Bool
  errorMessage : Option String
  deriving DecidableEq, Repr

/-- `UtilityPanel._delete_path` as invoked from the menu's Delete action:
call `FileUtils.delete_path` immediately (its success is decided by the
filesystem collaborator `fs_ok`); on success `_refresh_and_clear`
reloads the tree and clears the panel; on failure nothing further
happens — the panel keeps its actions and no message is mounted. -/
def delete_action (fs_ok : FilePath → Bool) (p : FilePath) : DeleteOutcome :=
  let result := fs_ok p
  if result then
    { deleteExecuted := true, confirmationRequested := false,
      treeReloaded := true, menuOpen := false, errorMessage := none }
  else
    { deleteExecuted := true, confirmationRequested := false,
      treeReloaded := false, menuOpen := true, errorMessage := none }

/-- C4 counterexample: a failing delete leaves the menu open but mounts
no inline error message, contrary to the claim that one is shown. -/
theorem delete_failure_shows_no_message :
    (delete_action (fun _ => false) ["home", "a.txt"]).menuOpen = true ∧
    (delete_action (fun _ => false) ["home", "a.txt"]).errorMessage = none :=
  ⟨rfl, rfl⟩

/-- C4 as amended: Delete executes the filesystem delete immediately with
no confirmation step; on success the tree is reloaded and the menu
closes, and on failure the menu stays open — but no inline error message
is shown in either case. -/
theorem delete_is_immediate_no_error_message (fs_ok : FilePath → Bool)
    (p : FilePath) :
    delete_action fs_ok p
      = { deleteExecuted := true, confirmationRequested := false,
          treeReloaded := fs_ok p, menuOpen := !(fs_ok p),
          errorMessage := none } := by
  unfold delete_action
  cases h : fs_ok p <;> simp [h]

/-! ### Tree node expansion (`FileTree.on_tree_node_expanded`) -/

/-- One tree node as the expansion handler sees it: its `data` attribute
(the `Path`, or `None` for synthetic error nodes), whether it is
expanded, and its current child nodes. -/
structure TreeNodeState where
  data : Option FilePath
  expanded : Bool
  children : List ChildNode
  deriving DecidableEq, Repr

/-- `FileTree.on_tree_node_expanded`: the widget marks the node expanded;
when the node carries a `Path` that the filesystem collaborator reports
as a directory, all existing children are removed and the node is
repopulated from a fresh `iterdir` listing (`listdir`). -/
def on_tree_node_expanded (is_dir : FilePath → Bool)
    (listdir : FilePath → ListingResult) (node : TreeNodeState) : TreeNodeState :=
  match node.data with
  | some p =>
      if is_dir p then
        { node with expanded := true, children := populate_node (listdir p) }
      else
        { node with expanded := true }
  | none => { node with expanded := true }

/-- Collapsing a node in the widget only folds it: the handler removes
children on the next expansion, not on collapse. -/
def collapse_node (node : TreeNodeState) : TreeNodeState :=
  { node with expanded := false }

/-- C5: expanding, collapsing, then expanding again shows exactly the
children freshly enumerated at the second expansion (`listdir₂`),
independent of the first enumeration; in particular every displayed
child entry belongs to the second listing, so an entry deleted from disk
between the two expansions does not appear. -/
theorem reexpand_reloads_from_disk (is_dir : FilePath → Bool)
    (listdir₁ listdir₂ : FilePath → ListingResult) (node : TreeNodeState)
    (p : FilePath) (hdata : node.data = some p) (hdir : is_dir p = true) :
    (on_tree_node_expanded is_dir listdir₂
        (collapse_node (on_tree_node_expanded is_dir listdir₁ node))).children
      = populate_node (listdir₂ p) ∧
    ∀ items₂, listdir₂ p = ListingResult.ok items₂ →
      ∀ c ∈ (on_tree_node_expanded is_dir listdir₂
          (collapse_node (on_tree_node_expanded is_dir listdir₁ node))).children,
        ∀ it, c.data = some it → it ∈ items₂ := by
  have hch : (on_tree_node_expanded is_dir listdir₂
      (collapse_node (on_tree_node_expanded is_dir listdir₁ node))).children
        = populate_node (listdir₂ p) := by
    simp [on_tree_node_expanded, collapse_node, hdata, hdir]
  refine ⟨hch, ?_⟩
  intro items₂ hlist c hc it hit
  rw [hch, hlist] at hc
  simp only [populate_node, List.mem_map] at hc
  obtain ⟨it', hmem, heq⟩ := hc
  have : c.data = some it' := by rw [← heq]
  rw [hit] at this
  rw [Option.some.inj this]
  have hmem' : it' ∈ items₂.mergeSort itemSortLE := hmem
  exact List.mem_mergeSort.mp hmem'

theorem reexpand_reloads_from_disk_witness :
    (on_tree_node_expanded (fun _ => true)
        (fun _ => ListingResult.ok [{ name := "kept.wav", isDir := false }])
        (collapse_node (on_tree_node_expanded (fun _ => true)
          (fun _ => ListingResult.ok
            [{ name := "kept.wav", isDir := false },
             { name := "deleted.wav", isDir := false }])
          { data := some ["home"], expanded := false, children := [] }))).children
      = populate_node (ListingResult.ok [{ name := "kept.wav", isDir := false }]) ∧
    ∀ items₂,
      (fun (_ : FilePath) => ListingResult.ok
          [{ name := "kept.wav", isDir := false }]) ["home"]
        = ListingResult.ok items₂ →
      ∀ c ∈ (on_tree_node_expanded (fun _ => true)
          (fun _ => ListingResult.ok [{ name := "kept.wav", isDir := false }])
          (collapse_node (on_tree_node_expanded (fun _ => true)
            (fun _ => ListingResult.ok
              [{ name := "kept.wav", isDir := false },
               { name := "deleted.wav", isDir := false }])
            { data := some ["home"], expanded := false, children := [] }))).children,
        ∀ it, c.data = some it → it ∈ items₂ :=
  reexpand_reloads_from_disk (fun _ => true)
    (fun _ => ListingResult.ok
      [{ name := "kept.wav", isDir := false },
       { name := "deleted.wav", isDir := false }])
    (fun _ => ListingResult.ok [{ name := "kept.wav", isDir := false }])
    { data := some ["home"], expanded := false, children := [] }
    ["home"] rfl rfl

end SamplePy
